import Mathlib

/-!
Verification of the caching XKCD proxy (src/xkcd-api.ts) against its
natural-language specification.  The TypeScript source is shallowly embedded:
the in-memory `Map` cache becomes an association list with JS `Map` semantics
(unique keys, `set` replaces in place or appends), time is an explicit `Nat`
millisecond clock passed where the source calls `Date.now()`, the outbound
`fetch` becomes an oracle `upstream : String → FetchResult α` mapping a URL to
its outcome, `Math.random()` becomes an explicit rational `r ∈ [0,1)`, and the
JSON payload type is an abstract `α` together with a `numField : α → Nat`
accessor standing for the `.num` field read by the random route.  Stateful
functions return the new cache state explicitly, and each fetch-performing
function additionally returns the list of URLs it actually fetched, so that
claims about "no second fetch" are statable.
-/

/-- CACHE_DURATION = 3600000 ms (1 hour), from src/xkcd-api.ts line 6. -/
def CACHE_DURATION : Nat := 3600000

/-- A cache entry as stored by `setCache`: `{ data, timestamp }`. -/
structure CacheEntry (α : Type) where
  data : α
  timestamp : Nat
deriving DecidableEq, Repr

/-- The in-memory cache `Map<string, {data, timestamp}>`, embedded as an
association list in insertion order. -/
abbrev Cache (α : Type) : Type := List (String × CacheEntry α)

/-- JS `Map.prototype.get`: first (and, for well-formed maps, only) binding. -/
def mapGet {α : Type} : Cache α → String → Option (CacheEntry α)
  | [], _ => none
  | (k', v') :: rest, k => if k' = k then some v' else mapGet rest k

/-- JS `Map.prototype.set`: replace the binding in place if the key exists,
otherwise append a new binding. -/
def mapSet {α : Type} : Cache α → String → CacheEntry α → Cache α
  | [], k, v => [(k, v)]
  | (k', v') :: rest, k, v =>
    if k' = k then (k, v) :: rest else (k', v') :: mapSet rest k v

/-- JS `Map.prototype.delete`: remove the binding for the key. -/
def mapDelete {α : Type} : Cache α → String → Cache α
  | [], _ => []
  | (k', v') :: rest, k => if k' = k then rest else (k', v') :: mapDelete rest k

/-- JS `Map.prototype.size`. -/
def mapSize {α : Type} (m : Cache α) : Nat := m.length

/-- JS `Map.prototype.keys()`, as used by `/cache/stats`. -/
def mapKeys {α : Type} (m : Cache α) : List String := m.map Prod.fst

/-- Well-formedness of a `Map` value: keys are pairwise distinct.  Every state
reachable from the empty map through `mapSet`/`mapDelete` satisfies this. -/
def CacheWF {α : Type} (m : Cache α) : Prop := (mapKeys m).Nodup

instance {α : Type} (m : Cache α) : Decidable (CacheWF m) :=
  List.nodupDecidable (mapKeys m)

/-- Outcome of the outbound `fetch(url)` followed by `response.json()`:
either a parsed payload (`response.ok` and body parsed), a non-success HTTP
status with its `statusText`, or a JSON parse failure with its message. -/
inductive FetchResult (α : Type) where
  | ok : α → FetchResult α
  | httpError : Nat → String → FetchResult α
  | parseError : String → FetchResult α
deriving DecidableEq, Repr

/-- The fetch failed: the result is not `ok`. -/
def FetchResult.isFail {α : Type} : FetchResult α → Prop
  | .ok _ => False
  | .httpError _ _ => True
  | .parseError _ => True

instance {α : Type} (f : FetchResult α) : Decidable f.isFail := by
  cases f <;> simp [FetchResult.isFail] <;> infer_instance

/-- Source `getCached(key)` (lines 22–32): returns the data if an entry exists
and its age `now - timestamp` is `< CACHE_DURATION`; deletes a stale entry.
Returns the possibly-mutated cache alongside the lookup result. -/
def getCached {α : Type} (now : Nat) (cache : Cache α) (key : String) :
    Option α × Cache α :=
  match mapGet cache key with
  | some cached =>
    if now - cached.timestamp < CACHE_DURATION then (some cached.data, cache)
    else (none, mapDelete cache key)
  | none => (none, cache)

/-- Source `setCache(key, data)` (lines 34–39). -/
def setCache {α : Type} (now : Nat) (cache : Cache α) (key : String) (data : α) :
    Cache α :=
  mapSet cache key ⟨data, now⟩

/-- Result of `fetchWithCache`: `{ data, cached }`. -/
structure FetchOutcome (α : Type) where
  data : α
  cached : Bool
deriving DecidableEq, Repr

/-- Source `fetchWithCache(url, cacheKey)` (lines 42–58): consult the cache
(evicting a stale entry), otherwise fetch; a non-ok response throws
`HTTP ${status}: ${statusText}`; on success the parsed body is cached.
Returns (thrown-or-returned result, final cache, URLs actually fetched). -/
def fetchWithCache {α : Type} (upstream : String → FetchResult α) (now : Nat)
    (cache : Cache α) (url : String) (cacheKey : String) :
    Except String (FetchOutcome α) × Cache α × List String :=
  match getCached now cache cacheKey with
  | (some cached, cache1) => (.ok ⟨cached, true⟩, cache1, [])
  | (none, cache1) =>
    match upstream url with
    | .ok data => (.ok ⟨data, false⟩, setCache now cache1 cacheKey data, [url])
    | .httpError status statusText =>
      (.error ("HTTP " ++ toString status ++ ": " ++ statusText), cache1, [url])
    | .parseError msg => (.error msg, cache1, [url])

/-- The URL fetched by `getLatestXkcd`. -/
def latestUrl : String := "https://xkcd.com/info.0.json"

/-- The URL fetched by `getXkcdByNumber(num)`. -/
def comicUrl (num : Int) : String :=
  "https://xkcd.com/" ++ toString num ++ "/info.0.json"

/-- Source `getLatestXkcd()` (lines 61–67). -/
def getLatestXkcd {α : Type} (upstream : String → FetchResult α) (now : Nat)
    (cache : Cache α) : Except String (FetchOutcome α) × Cache α × List String :=
  fetchWithCache upstream now cache latestUrl "latest"

/-- Source `getXkcdByNumber(num)` (lines 69–75): cache key `comic-${num}`. -/
def getXkcdByNumber {α : Type} (upstream : String → FetchResult α) (now : Nat)
    (cache : Cache α) (num : Int) :
    Except String (FetchOutcome α) × Cache α × List String :=
  fetchWithCache upstream now cache (comicUrl num) ("comic-" ++ toString num)

/-- The number drawn on the random route:
`Math.floor(Math.random() * latest.num) + 1` with `Math.random() = r`. -/
def randomNum (r : ℚ) (latestNum : Nat) : Int :=
  ⌊r * (latestNum : ℚ)⌋ + 1

/-- Source `getRandomXkcd()` (lines 77–81): fetch the latest comic, draw
`randomNum`, then fetch that comic.  A failure of the latest fetch propagates
(the `await` rethrows) before any draw happens. -/
def getRandomXkcd {α : Type} (upstream : String → FetchResult α)
    (numField : α → Nat) (r : ℚ) (now : Nat) (cache : Cache α) :
    Except String (FetchOutcome α) × Cache α × List String :=
  match getLatestXkcd upstream now cache with
  | (.error e, cache1, log1) => (.error e, cache1, log1)
  | (.ok res, cache1, log1) =>
    let n := randomNum r (numField res.data)
    match getXkcdByNumber upstream now cache1 n with
    | (res2, cache2, log2) => (res2, cache2, log1 ++ log2)

/-- The regex `^\/\d+$` of the numeric route (line 121): a slash followed by
one or more decimal digits. -/
def matchesComicRoute (path : String) : Bool :=
  match path.data with
  | '/' :: rest => !rest.isEmpty && rest.all Char.isDigit
  | _ => false

/-- JS `parseInt` restricted to all-digit strings: the denoted decimal value
(leading zeros ignored). -/
def parseIntDigits (ds : List Char) : Nat :=
  ds.foldl (fun acc c => acc * 10 + (c.toNat - '0'.toNat)) 0

/-- The `data` field of a success envelope: either the upstream payload passed
through, the `/cache/stats` report, or the `/cache/clear` report. -/
inductive EnvData (α : Type) where
  | payload : α → EnvData α
  | stats : Nat → List String → Nat → EnvData α
  | clearInfo : String → Nat → EnvData α
deriving DecidableEq, Repr

/-- The JSON envelope written by the handler; absent JSON fields are `none`. -/
structure Envelope (α : Type) where
  success : Bool
  data : Option (EnvData α)
  error : Option String
  path : Option String
  endpoint : Option String
  cached : Option Bool
  timestamp : Option Nat
deriving DecidableEq, Repr

/-- An HTTP response: status, body (none for the 204 preflight), and the
`X-Cache` header when set. -/
structure HttpResponse (α : Type) where
  status : Nat
  body : Option (Envelope α)
  xCache : Option String
deriving DecidableEq, Repr

/-- Full observable outcome of one request: the response, the cache state it
leaves behind, and the upstream URLs it fetched. -/
structure HandlerResult (α : Type) where
  response : HttpResponse α
  cache : Cache α
  fetched : List String

/-- Lines 162–195: wrap an operation's outcome.  Success → 200 envelope with
`success:true, data, cached, endpoint, timestamp` and `X-Cache: HIT|MISS`;
a thrown error → 500 envelope `{success:false, error: message ||
"Internal Server Error"}` (JS `||` takes the fallback on an empty message). -/
def finishRequest {α : Type} (now : Nat) (endpoint : String)
    (out : Except String (FetchOutcome α) × Cache α × List String) :
    HandlerResult α :=
  match out with
  | (.ok res, cache1, log) =>
    ⟨⟨200, some { success := true, data := some (.payload res.data), error := none,
                  path := none, endpoint := some endpoint,
                  cached := some res.cached, timestamp := some now },
      some (if res.cached then "HIT" else "MISS")⟩, cache1, log⟩
  | (.error e, cache1, log) =>
    ⟨⟨500, some { success := false, data := none,
                  error := some (if e = "" then "Internal Server Error" else e),
                  path := none, endpoint := none, cached := none,
                  timestamp := none }, none⟩, cache1, log⟩

/-- Source `handler(req)` (lines 92–196): CORS preflight, then the
`switch (true)` route dispatch in source order, the 404 default, and the
catch-all 500.  `r` is the value `Math.random()` would return on this
request and `now` the value of `Date.now()`. -/
def handler {α : Type} (upstream : String → FetchResult α) (numField : α → Nat)
    (r : ℚ) (now : Nat) (cache : Cache α) (method : String) (path : String) :
    HandlerResult α :=
  if method = "OPTIONS" then
    ⟨⟨204, none, none⟩, cache, []⟩
  else if path = "/" ∨ path = "/latest" then
    finishRequest now "latest" (getLatestXkcd upstream now cache)
  else if path = "/random" then
    finishRequest now "random" (getRandomXkcd upstream numField r now cache)
  else if matchesComicRoute path then
    let num : Nat := parseIntDigits path.data.tail
    finishRequest now ("comic-" ++ toString num)
      (getXkcdByNumber upstream now cache (Int.ofNat num))
  else if path = "/cache/stats" then
    ⟨⟨200, some { success := true,
                  data := some (.stats (mapSize cache) (mapKeys cache) CACHE_DURATION),
                  error := none, path := none, endpoint := some path,
                  cached := some false, timestamp := some now },
      some "MISS"⟩, cache, []⟩
  else if path = "/cache/clear" then
    let cleared : Cache α := []
    ⟨⟨200, some { success := true,
                  data := some (.clearInfo "Cache cleared" (mapSize cleared)),
                  error := none, path := none, endpoint := some path,
                  cached := some false, timestamp := some now },
      some "MISS"⟩, cleared, []⟩
  else
    ⟨⟨404, some { success := false, data := none, error := some "Not Found",
                  path := some path, endpoint := none, cached := none,
                  timestamp := none }, none⟩, cache, []⟩

/-! ### Association-list lemmas for the JS `Map` semantics -/

/-- A key that is not among the map's keys looks up to nothing. -/
theorem mapGet_eq_none_of_not_mem {α : Type} (m : Cache α) (k : String)
    (h : k ∉ mapKeys m) : mapGet m k = none := by
  induction m with
  | nil => rfl
  | cons p rest ih =>
    obtain ⟨k0, v0⟩ := p
    rw [show mapKeys ((k0, v0) :: rest) = k0 :: mapKeys rest from rfl,
        List.mem_cons] at h
    push_neg at h
    show (if k0 = k then some v0 else mapGet rest k) = none
    rw [if_neg (fun hk : k0 = k => h.1 hk.symm)]
    exact ih h.2

/-- `Map.delete` does not affect lookups of other keys. -/
theorem mapGet_mapDelete_ne {α : Type} (m : Cache α) (k k2 : String)
    (h : k2 ≠ k) : mapGet (mapDelete m k) k2 = mapGet m k2 := by
  induction m with
  | nil => rfl
  | cons p rest ih =>
    obtain ⟨k0, v0⟩ := p
    by_cases h0 : k0 = k
    · subst h0
      show mapGet (if k0 = k0 then rest else (k0, v0) :: mapDelete rest k0) k2 =
        mapGet ((k0, v0) :: rest) k2
      rw [if_pos rfl]
      show mapGet rest k2 = if k0 = k2 then some v0 else mapGet rest k2
      rw [if_neg (fun hk : k0 = k2 => h hk.symm)]
    · show mapGet (if k0 = k then rest else (k0, v0) :: mapDelete rest k) k2 =
        mapGet ((k0, v0) :: rest) k2
      rw [if_neg h0]
      show (if k0 = k2 then some v0 else mapGet (mapDelete rest k) k2) =
        (if k0 = k2 then some v0 else mapGet rest k2)
      by_cases h1 : k0 = k2
      · rw [if_pos h1, if_pos h1]
      · rw [if_neg h1, if_neg h1]
        exact ih

/-- On a well-formed map, `Map.delete` removes the key's binding entirely. -/
theorem mapGet_mapDelete_self {α : Type} (m : Cache α) (k : String)
    (hwf : CacheWF m) : mapGet (mapDelete m k) k = none := by
  induction m with
  | nil => rfl
  | cons p rest ih =>
    obtain ⟨k0, v0⟩ := p
    rw [show CacheWF ((k0, v0) :: rest) = (k0 :: mapKeys rest).Nodup from rfl,
        List.nodup_cons] at hwf
    by_cases h0 : k0 = k
    · subst h0
      show mapGet (if k0 = k0 then rest else (k0, v0) :: mapDelete rest k0) k0 = none
      rw [if_pos rfl]
      exact mapGet_eq_none_of_not_mem rest k0 hwf.1
    · show mapGet (if k0 = k then rest else (k0, v0) :: mapDelete rest k) k = none
      rw [if_neg h0]
      show (if k0 = k then some v0 else mapGet (mapDelete rest k) k) = none
      rw [if_neg h0]
      exact ih hwf.2

/-- Deleting a present key shrinks the map size by exactly one. -/
theorem mapSize_mapDelete {α : Type} (m : Cache α) (k : String)
    (e : CacheEntry α) (h : mapGet m k = some e) :
    mapSize (mapDelete m k) + 1 = mapSize m := by
  induction m with
  | nil => simp [mapGet] at h
  | cons p rest ih =>
    obtain ⟨k0, v0⟩ := p
    by_cases h0 : k0 = k
    · show mapSize (if k0 = k then rest else (k0, v0) :: mapDelete rest k) + 1 =
        mapSize ((k0, v0) :: rest)
      rw [if_pos h0]
      rfl
    · have h2 : mapGet rest k = some e := by
        have h3 : (if k0 = k then some v0 else mapGet rest k) = some e := h
        rwa [if_neg h0] at h3
      show mapSize (if k0 = k then rest else (k0, v0) :: mapDelete rest k) + 1 =
        mapSize ((k0, v0) :: rest)
      rw [if_neg h0]
      show mapSize (mapDelete rest k) + 1 + 1 = mapSize rest + 1
      rw [ih h2]

/-- `Map.set` makes the key look up to the new entry. -/
theorem mapGet_mapSet_self {α : Type} (m : Cache α) (k : String)
    (v : CacheEntry α) : mapGet (mapSet m k v) k = some v := by
  induction m with
  | nil =>
    show (if k = k then some v else mapGet [] k) = some v
    rw [if_pos rfl]
  | cons p rest ih =>
    obtain ⟨k0, v0⟩ := p
    by_cases h0 : k0 = k
    · show mapGet (if k0 = k then (k, v) :: rest else (k0, v0) :: mapSet rest k v) k =
        some v
      rw [if_pos h0]
      show (if k = k then some v else mapGet rest k) = some v
      rw [if_pos rfl]
    · show mapGet (if k0 = k then (k, v) :: rest else (k0, v0) :: mapSet rest k v) k =
        some v
      rw [if_neg h0]
      show (if k0 = k then some v0 else mapGet (mapSet rest k v) k) = some v
      rw [if_neg h0]
      exact ih

/-- `Map.set` does not affect lookups of other keys. -/
theorem mapGet_mapSet_ne {α : Type} (m : Cache α) (k k2 : String)
    (v : CacheEntry α) (h : k2 ≠ k) :
    mapGet (mapSet m k v) k2 = mapGet m k2 := by
  induction m with
  | nil =>
    show (if k = k2 then some v else mapGet [] k2) = mapGet [] k2
    rw [if_neg (fun hk : k = k2 => h hk.symm)]
  | cons p rest ih =>
    obtain ⟨k0, v0⟩ := p
    by_cases h0 : k0 = k
    · subst h0
      show mapGet (if k0 = k0 then (k0, v) :: rest else (k0, v0) :: mapSet rest k0 v) k2 =
        mapGet ((k0, v0) :: rest) k2
      rw [if_pos rfl]
      show (if k0 = k2 then some v else mapGet rest k2) =
        (if k0 = k2 then some v0 else mapGet rest k2)
      have hn : ¬ k0 = k2 := fun hk => h hk.symm
      rw [if_neg hn, if_neg hn]
    · show mapGet (if k0 = k then (k, v) :: rest else (k0, v0) :: mapSet rest k v) k2 =
        mapGet ((k0, v0) :: rest) k2
      rw [if_neg h0]
      show (if k0 = k2 then some v0 else mapGet (mapSet rest k v) k2) =
        (if k0 = k2 then some v0 else mapGet rest k2)
      by_cases h1 : k0 = k2
      · rw [if_pos h1, if_pos h1]
      · rw [if_neg h1, if_neg h1]
        exact ih

/-! ### Claim theorems -/

/-- C2: for every key and cache state, `getCached` returns the stored payload
iff an entry for the key exists whose age `now - insertedAt` is below the
1-hour TTL; otherwise it returns `none`, and a stale entry is removed by the
lookup itself, so that a subsequent `size()` reflects the removal. -/
theorem getCached_ttl_spec {α : Type} (now : Nat) (cache : Cache α) (key : String) :
    (∀ v : α, (getCached now cache key).1 = some v ↔
      ∃ e : CacheEntry α, mapGet cache key = some e ∧
        now - e.timestamp < CACHE_DURATION ∧ e.data = v) ∧
    (∀ e : CacheEntry α, mapGet cache key = some e →
      ¬ now - e.timestamp < CACHE_DURATION →
        getCached now cache key = (none, mapDelete cache key) ∧
        (CacheWF cache → mapGet (mapDelete cache key) key = none) ∧
        mapSize (mapDelete cache key) + 1 = mapSize cache) := by
  constructor
  · intro v
    unfold getCached
    cases hget : mapGet cache key with
    | none => simp [hget]
    | some e =>
      by_cases hfresh : now - e.timestamp < CACHE_DURATION
      · simp only [if_pos hfresh]
        constructor
        · intro hv
          exact ⟨e, rfl, hfresh, Option.some_injective α hv⟩
        · rintro ⟨e2, he2, -, hd⟩
          cases he2
          exact congrArg some hd
      · simp only [if_neg hfresh]
        constructor
        · intro hv
          cases hv
        · rintro ⟨e2, he2, hf2, -⟩
          cases he2
          exact absurd hf2 hfresh
  · intro e hget hstale
    refine ⟨?_, fun hwf => mapGet_mapDelete_self cache key hwf,
      mapSize_mapDelete cache key e hget⟩
    unfold getCached
    rw [hget]
    exact if_neg hstale

/-- Witness for C2 at a concrete input: one entry of age exactly the TTL is
stale, the lookup misses, the entry is gone and the size drops to zero. -/
theorem getCached_ttl_spec_witness :
    getCached 3600000 [("k", (⟨42, 0⟩ : CacheEntry Nat))] "k" =
      (none, mapDelete [("k", (⟨42, 0⟩ : CacheEntry Nat))] "k") ∧
    mapGet (mapDelete [("k", (⟨42, 0⟩ : CacheEntry Nat))] "k") "k" = none ∧
    mapSize (mapDelete [("k", (⟨42, 0⟩ : CacheEntry Nat))] "k") + 1 = 1 := by
  have h := (getCached_ttl_spec 3600000 [("k", (⟨42, 0⟩ : CacheEntry Nat))] "k").2
    ⟨42, 0⟩ rfl (by decide)
  exact ⟨h.1, h.2.1 (by decide), h.2.2⟩

/-- A fresh entry (age below the TTL) is returned by `getCached` and the store
is untouched. -/
theorem getCached_setCache_fresh {α : Type} (now later : Nat) (cache : Cache α)
    (k : String) (v : α) (h : later - now < CACHE_DURATION) :
    getCached later (setCache now cache k v) k = (some v, setCache now cache k v) := by
  unfold getCached setCache
  rw [mapGet_mapSet_self cache k (⟨v, now⟩ : CacheEntry α)]
  show (if later - now < CACHE_DURATION
      then (some v, mapSet cache k ⟨v, now⟩)
      else (none, mapDelete (mapSet cache k ⟨v, now⟩) k)) =
    (some v, mapSet cache k ⟨v, now⟩)
  rw [if_pos h]

/-- C3: `put(k, v)` at time `now` followed by `get(k)` at any `later` with
`later - now < TTL` returns `v`; `fetchWithCache` then serves from the cache
without fetching, and a request served from such an entry is marked as a cache
hit: `cached:true` in the envelope and `X-Cache: HIT`. -/
theorem put_then_get_within_ttl {α : Type} (upstream : String → FetchResult α)
    (numField : α → Nat) (rq : ℚ) (now later : Nat) (cache : Cache α)
    (k url : String) (v : α) (h : later - now < CACHE_DURATION) :
    getCached later (setCache now cache k v) k = (some v, setCache now cache k v) ∧
    fetchWithCache upstream later (setCache now cache k v) url k =
      (.ok ⟨v, true⟩, setCache now cache k v, []) ∧
    handler upstream numField rq later (setCache now cache "latest" v) "GET" "/latest" =
      ⟨⟨200, some { success := true, data := some (.payload v), error := none,
                    path := none, endpoint := some "latest", cached := some true,
                    timestamp := some later }, some "HIT"⟩,
       setCache now cache "latest" v, []⟩ := by
  have hfetch : ∀ kk uu, fetchWithCache upstream later (setCache now cache kk v) uu kk =
      (.ok ⟨v, true⟩, setCache now cache kk v, []) := by
    intro kk uu
    unfold fetchWithCache
    rw [getCached_setCache_fresh now later cache kk v h]
  refine ⟨getCached_setCache_fresh now later cache k v h, hfetch k url, ?_⟩
  unfold handler
  rw [if_neg (by decide : ¬ ("GET" : String) = "OPTIONS")]
  rw [if_pos (Or.inr rfl : ("/latest" : String) = "/" ∨ ("/latest" : String) = "/latest")]
  unfold getLatestXkcd
  rw [hfetch "latest" latestUrl]
  rfl

/-- Witness for C3: a concrete put at time 0 read back at time 5 is a HIT. -/
theorem put_then_get_within_ttl_witness :
    getCached 5 (setCache 0 [] "k" (7 : Nat)) "k" = (some 7, setCache 0 [] "k" 7) ∧
    handler (fun _ => FetchResult.ok (0 : Nat)) id 0 5 (setCache 0 [] "latest" 7)
        "GET" "/latest" =
      ⟨⟨200, some { success := true, data := some (.payload 7), error := none,
                    path := none, endpoint := some "latest", cached := some true,
                    timestamp := some 5 }, some "HIT"⟩,
       setCache 0 [] "latest" 7, []⟩ := by
  have h := put_then_get_within_ttl (fun _ => FetchResult.ok (0 : Nat)) id 0 0 5 []
    "k" "u" 7 (by decide)
  exact ⟨h.1, h.2.2⟩

/-- C4: for every latest ordinal `N ≥ 1` and every value `r ∈ [0,1)` of
`Math.random()`, the number drawn by `Math.floor(r * N) + 1` is an integer in
`[1, N]`; moreover each outcome `i` corresponds exactly to `r` in the interval
`[(i-1)/N, i/N)` of length `1/N`, so a uniform `r` yields a uniform draw. -/
theorem drawn_number_in_range (r : ℚ) (N : Nat) (hN : 1 ≤ N) (h0 : 0 ≤ r) (h1 : r < 1) :
    1 ≤ randomNum r N ∧ randomNum r N ≤ N ∧
    ∀ i : Int, 1 ≤ i → i ≤ N →
      (randomNum r N = i ↔ ((i : ℚ) - 1) / N ≤ r ∧ r < (i : ℚ) / N) := by
  have hNQ : (0 : ℚ) < N := by exact_mod_cast Nat.lt_of_lt_of_le Nat.zero_lt_one hN
  refine ⟨?_, ?_, ?_⟩
  · have h2 : (0 : ℤ) ≤ ⌊r * (N : ℚ)⌋ := Int.floor_nonneg.mpr (mul_nonneg h0 hNQ.le)
    unfold randomNum
    omega
  · have hlt : r * N < N := by
      calc r * N < 1 * N := mul_lt_mul_of_pos_right h1 hNQ
      _ = N := one_mul _
    have h2 : ⌊r * (N : ℚ)⌋ < (N : ℤ) := Int.floor_lt.mpr (by exact_mod_cast hlt)
    unfold randomNum
    omega
  · intro i hi1 hiN
    have hdiv1 : ((i : ℚ) - 1) / N ≤ r ↔ (i : ℚ) - 1 ≤ r * N := div_le_iff₀ hNQ
    have hdiv2 : r < (i : ℚ) / N ↔ r * N < i := lt_div_iff₀ hNQ
    unfold randomNum
    constructor
    · intro he
      have hfl : ⌊r * (N : ℚ)⌋ = i - 1 := by omega
      obtain ⟨ha, hb⟩ := Int.floor_eq_iff.mp hfl
      constructor
      · rw [hdiv1]
        push_cast at ha
        linarith
      · rw [hdiv2]
        push_cast at hb
        linarith
    · rintro ⟨ha, hb⟩
      rw [hdiv1] at ha
      rw [hdiv2] at hb
      have hfl : ⌊r * (N : ℚ)⌋ = i - 1 :=
        Int.floor_eq_iff.mpr ⟨by push_cast; linarith, by push_cast; linarith⟩
      omega

/-- Witness for C4 at `r = 1/2`, `N = 10`: the draw lands in `[1, 10]`. -/
theorem drawn_number_in_range_witness :
    1 ≤ randomNum (1/2) 10 ∧ randomNum (1/2) 10 ≤ 10 := by
  have h := drawn_number_in_range (1/2) 10 (by norm_num) (by norm_num) (by norm_num)
  exact ⟨h.1, h.2.1⟩

/-- The thrown transport-error message `HTTP ${status}: ${statusText}` is never
the empty string, so the catch branch keeps it verbatim. -/
theorem http_msg_ne_empty (s t : String) : ("HTTP " ++ s ++ t : String) ≠ "" := by
  intro h
  have h2 := congrArg String.data h
  rw [String.data_append, String.data_append] at h2
  simp at h2

/-- The catch branch of the dispatcher on a thrown non-empty message: a 500
response with the message in the envelope's `error` field. -/
theorem finishRequest_error {α : Type} (now : Nat) (ep e : String) (c : Cache α)
    (log : List String) (hne : e ≠ "") :
    finishRequest now ep (.error e, c, log) =
      ⟨⟨500, some { success := false, data := none, error := some e, path := none,
                    endpoint := none, cached := none, timestamp := none },
        none⟩, c, log⟩ := by
  show (⟨⟨500, some { success := false, data := none,
                      error := some (if e = "" then "Internal Server Error" else e),
                      path := none, endpoint := none, cached := none,
                      timestamp := none }, none⟩, c, log⟩ : HandlerResult α) = _
  rw [if_neg hne]

/-- C5: a cache miss on the latest route whose upstream fetch returns a
non-success HTTP status makes the fetch fail with the message
`HTTP ${status}: ${statusText}` (carrying the status code and reason), and the
dispatcher converts it into a 500 response whose envelope is
`{success:false, error: <message containing the status code>}`. -/
theorem upstream_http_error_to_500 {α : Type} (upstream : String → FetchResult α)
    (numField : α → Nat) (rq : ℚ) (now : Nat) (cache : Cache α)
    (status : Nat) (reason : String)
    (hmiss : (getCached now cache "latest").1 = none)
    (hup : upstream latestUrl = .httpError status reason) :
    fetchWithCache upstream now cache latestUrl "latest" =
      (.error ("HTTP " ++ toString status ++ ": " ++ reason),
       (getCached now cache "latest").2, [latestUrl]) ∧
    handler upstream numField rq now cache "GET" "/latest" =
      ⟨⟨500, some { success := false, data := none,
                    error := some ("HTTP " ++ toString status ++ ": " ++ reason),
                    path := none, endpoint := none, cached := none,
                    timestamp := none }, none⟩,
       (getCached now cache "latest").2, [latestUrl]⟩ ∧
    ∃ a b : String, "HTTP " ++ toString status ++ ": " ++ reason =
      a ++ toString status ++ b := by
  have hc : getCached now cache "latest" = (none, (getCached now cache "latest").2) :=
    Prod.ext_iff.mpr ⟨hmiss, rfl⟩
  have hfetch : fetchWithCache upstream now cache latestUrl "latest" =
      (.error ("HTTP " ++ toString status ++ ": " ++ reason),
       (getCached now cache "latest").2, [latestUrl]) := by
    conv_lhs => rw [fetchWithCache, hc, hup]
  refine ⟨hfetch, ?_, "HTTP ", ": " ++ reason, ?_⟩
  · unfold handler
    rw [if_neg (by decide : ¬ ("GET" : String) = "OPTIONS")]
    rw [if_pos (Or.inr rfl : ("/latest" : String) = "/" ∨ ("/latest" : String) = "/latest")]
    unfold getLatestXkcd
    rw [hfetch]
    exact finishRequest_error now "latest" _ _ _ (http_msg_ne_empty _ _)
  · rw [String.append_assoc]

/-- Witness for C5: a 503 from the upstream surfaces as a 500 envelope whose
error message contains the string form of 503. -/
theorem upstream_http_error_to_500_witness :
    handler (fun _ => FetchResult.httpError 503 "Service Unavailable") (id : Nat → Nat)
        0 0 [] "GET" "/latest" =
      ⟨⟨500, some { success := false, data := none,
                    error := some ("HTTP " ++ toString 503 ++ ": " ++ "Service Unavailable"),
                    path := none, endpoint := none, cached := none,
                    timestamp := none }, none⟩,
       (getCached 0 ([] : Cache Nat) "latest").2, [latestUrl]⟩ ∧
    ∃ a b : String, "HTTP " ++ toString 503 ++ ": " ++ "Service Unavailable" =
      a ++ toString 503 ++ b := by
  have h := upstream_http_error_to_500
    (fun _ => FetchResult.httpError 503 "Service Unavailable") (id : Nat → Nat)
    0 0 [] 503 "Service Unavailable" rfl rfl
  exact ⟨h.2.1, h.2.2⟩

/-- C6: a non-preflight request whose path matches none of the known routes
(`/`, `/latest`, `/random`, `/{digits}`, `/cache/stats`, `/cache/clear`) gets a
404 response with body `{success:false, error:"Not Found", path}`, leaving the
cache untouched and performing no fetch. -/
theorem unmatched_path_404 {α : Type} (upstream : String → FetchResult α)
    (numField : α → Nat) (rq : ℚ) (now : Nat) (cache : Cache α)
    (method path : String)
    (hm : method ≠ "OPTIONS")
    (h1 : ¬ (path = "/" ∨ path = "/latest"))
    (h2 : path ≠ "/random")
    (h3 : matchesComicRoute path = false)
    (h4 : path ≠ "/cache/stats")
    (h5 : path ≠ "/cache/clear") :
    handler upstream numField rq now cache method path =
      ⟨⟨404, some { success := false, data := none, error := some "Not Found",
                    path := some path, endpoint := none, cached := none,
                    timestamp := none }, none⟩, cache, []⟩ := by
  unfold handler
  rw [if_neg hm, if_neg h1, if_neg h2,
      if_neg (by simp [h3] : ¬ matchesComicRoute path = true),
      if_neg h4, if_neg h5]

/-- Witness for C6: `GET /nonexistent/path` yields the 404 envelope carrying
the offending path. -/
theorem unmatched_path_404_witness :
    handler (fun _ => FetchResult.ok (0 : Nat)) id 0 0 [] "GET" "/nonexistent/path" =
      ⟨⟨404, some { success := false, data := none, error := some "Not Found",
                    path := some "/nonexistent/path", endpoint := none,
                    cached := none, timestamp := none }, none⟩, [], []⟩ :=
  unmatched_path_404 (fun _ => FetchResult.ok (0 : Nat)) id 0 0 [] "GET"
    "/nonexistent/path" (by decide) (by decide) (by decide) (by decide)
    (by decide) (by decide)

/-- C7: whenever the fetch of the latest comic fails, `getRandomXkcd` fails
with the very same error, leaves the cache exactly as the latest attempt left
it, and fetches only the latest URL — there is no fallback draw and no second
fetch of a numbered comic. -/
theorem random_propagates_latest_failure {α : Type} (upstream : String → FetchResult α)
    (numField : α → Nat) (rq : ℚ) (now : Nat) (cache : Cache α) (e : String)
    (hfail : (getLatestXkcd upstream now cache).1 = .error e) :
    ∃ c1 : Cache α,
      getLatestXkcd upstream now cache = (.error e, c1, [latestUrl]) ∧
      getRandomXkcd upstream numField rq now cache = (.error e, c1, [latestUrl]) := by
  rcases hgc : getCached now cache "latest" with ⟨o, c1⟩
  cases o with
  | some v =>
    exfalso
    have hL : getLatestXkcd upstream now cache = (.ok ⟨v, true⟩, c1, []) := by
      conv_lhs => rw [getLatestXkcd, fetchWithCache, hgc]
    rw [hL] at hfail
    exact Except.noConfusion
      (show (Except.ok (⟨v, true⟩ : FetchOutcome α) : Except String (FetchOutcome α)) =
        Except.error e from hfail)
  | none =>
    cases hup : upstream latestUrl with
    | ok d =>
      exfalso
      have hL : getLatestXkcd upstream now cache =
          (.ok ⟨d, false⟩, setCache now c1 "latest" d, [latestUrl]) := by
        conv_lhs => rw [getLatestXkcd, fetchWithCache, hgc, hup]
      rw [hL] at hfail
      exact Except.noConfusion
        (show (Except.ok (⟨d, false⟩ : FetchOutcome α) : Except String (FetchOutcome α)) =
          Except.error e from hfail)
    | httpError s st =>
      have hL : getLatestXkcd upstream now cache =
          (.error ("HTTP " ++ toString s ++ ": " ++ st), c1, [latestUrl]) := by
        conv_lhs => rw [getLatestXkcd, fetchWithCache, hgc, hup]
      have he : ("HTTP " ++ toString s ++ ": " ++ st) = e := by
        rw [hL] at hfail
        exact Except.error.inj hfail
      rw [he] at hL
      refine ⟨c1, hL, ?_⟩
      unfold getRandomXkcd
      rw [hL]
    | parseError m =>
      have hL : getLatestXkcd upstream now cache = (.error m, c1, [latestUrl]) := by
        conv_lhs => rw [getLatestXkcd, fetchWithCache, hgc, hup]
      have he : m = e := by
        rw [hL] at hfail
        exact Except.error.inj hfail
      rw [he] at hL
      refine ⟨c1, hL, ?_⟩
      unfold getRandomXkcd
      rw [hL]

/-- Witness for C7: with an upstream that always returns HTTP 500, the random
route fails with the latest route's error after a single fetch. -/
theorem random_propagates_latest_failure_witness :
    ∃ c1 : Cache Nat,
      getLatestXkcd (fun _ => FetchResult.httpError 500 "oops") 0 [] =
        (.error "HTTP 500: oops", c1, [latestUrl]) ∧
      getRandomXkcd (fun _ => FetchResult.httpError 500 "oops") id 0 0 [] =
        (.error "HTTP 500: oops", c1, [latestUrl]) :=
  random_propagates_latest_failure (fun _ => FetchResult.httpError 500 "oops")
    id 0 0 [] "HTTP 500: oops" rfl

/-- C8: on a cache miss for `key` whose upstream fetch fails (transport or
parse error), `fetchWithCache` inserts no new entry for `key` and modifies no
other key: the final store is the post-lookup store, which is either the
original store or the original store with `key`'s stale entry eagerly removed,
and `key` has no entry in it. -/
theorem failed_fetch_preserves_store {α : Type} (upstream : String → FetchResult α)
    (now : Nat) (cache : Cache α) (url key : String)
    (hwf : CacheWF cache)
    (hmiss : (getCached now cache key).1 = none)
    (hfail : (upstream url).isFail) :
    ∃ e : String,
      fetchWithCache upstream now cache url key =
        (.error e, (getCached now cache key).2, [url]) ∧
      (∀ k2, k2 ≠ key → mapGet (getCached now cache key).2 k2 = mapGet cache k2) ∧
      mapGet (getCached now cache key).2 key = none ∧
      ((getCached now cache key).2 = cache ∨
        (getCached now cache key).2 = mapDelete cache key) := by
  have hc : getCached now cache key = (none, (getCached now cache key).2) :=
    Prod.ext_iff.mpr ⟨hmiss, rfl⟩
  have hrest : (∀ k2, k2 ≠ key → mapGet (getCached now cache key).2 k2 = mapGet cache k2) ∧
      mapGet (getCached now cache key).2 key = none ∧
      ((getCached now cache key).2 = cache ∨
        (getCached now cache key).2 = mapDelete cache key) := by
    cases hget : mapGet cache key with
    | none =>
      have h2 : (getCached now cache key).2 = cache := by
        conv_lhs => rw [getCached, hget]
      rw [h2]
      exact ⟨fun k2 _ => rfl, hget, Or.inl rfl⟩
    | some en =>
      have h0 : getCached now cache key =
          (if now - en.timestamp < CACHE_DURATION then (some en.data, cache)
           else (none, mapDelete cache key)) := by
        conv_lhs => rw [getCached, hget]
      by_cases hfresh : now - en.timestamp < CACHE_DURATION
      · exfalso
        have hx : (getCached now cache key).1 = some en.data := by
          rw [h0, if_pos hfresh]
        rw [hmiss] at hx
        exact Option.noConfusion hx
      · have h2 : (getCached now cache key).2 = mapDelete cache key := by
          rw [h0, if_neg hfresh]
        rw [h2]
        exact ⟨fun k2 hk => mapGet_mapDelete_ne cache key k2 hk,
               mapGet_mapDelete_self cache key hwf, Or.inr rfl⟩
  cases hup : upstream url with
  | ok d =>
    exfalso
    rw [hup] at hfail
    exact hfail
  | httpError s st =>
    refine ⟨"HTTP " ++ toString s ++ ": " ++ st, ?_, hrest⟩
    conv_lhs => rw [fetchWithCache, hc, hup]
  | parseError m =>
    refine ⟨m, ?_, hrest⟩
    conv_lhs => rw [fetchWithCache, hc, hup]

/-- Witness for C8: a stale entry for `k` plus a fresh entry for `other`; the
failing fetch removes only `k`'s stale entry and inserts nothing. -/
theorem failed_fetch_preserves_store_witness :
    ∃ e : String,
      fetchWithCache (fun _ => FetchResult.parseError "bad json") 3600000
          [("k", (⟨42, 0⟩ : CacheEntry Nat)), ("other", ⟨7, 3600000⟩)] "u" "k" =
        (.error e,
         (getCached 3600000
           [("k", (⟨42, 0⟩ : CacheEntry Nat)), ("other", ⟨7, 3600000⟩)] "k").2, ["u"]) ∧
      (∀ k2, k2 ≠ "k" →
        mapGet (getCached 3600000
          [("k", (⟨42, 0⟩ : CacheEntry Nat)), ("other", ⟨7, 3600000⟩)] "k").2 k2 =
        mapGet [("k", (⟨42, 0⟩ : CacheEntry Nat)), ("other", ⟨7, 3600000⟩)] k2) ∧
      mapGet (getCached 3600000
        [("k", (⟨42, 0⟩ : CacheEntry Nat)), ("other", ⟨7, 3600000⟩)] "k").2 "k" = none ∧
      ((getCached 3600000
          [("k", (⟨42, 0⟩ : CacheEntry Nat)), ("other", ⟨7, 3600000⟩)] "k").2 =
        [("k", (⟨42, 0⟩ : CacheEntry Nat)), ("other", ⟨7, 3600000⟩)] ∨
       (getCached 3600000
          [("k", (⟨42, 0⟩ : CacheEntry Nat)), ("other", ⟨7, 3600000⟩)] "k").2 =
        mapDelete [("k", (⟨42, 0⟩ : CacheEntry Nat)), ("other", ⟨7, 3600000⟩)] "k") :=
  failed_fetch_preserves_store (fun _ => FetchResult.parseError "bad json") 3600000
    [("k", (⟨42, 0⟩ : CacheEntry Nat)), ("other", ⟨7, 3600000⟩)] "u" "k"
    (by decide) (by decide) (by trivial)

/-- C1: evaluation of `GET /cache/clear` with exactly one prior entry.  The
route does remove all entries, but because the source reads `cache.size` only
after calling `cache.clear()`, the reported `previousSize` is 0, not the prior
count 1 demanded by the specification. -/
theorem cache_clear_reports_size_after_clear :
    mapSize [("latest", (⟨5, 0⟩ : CacheEntry Nat))] = 1 ∧
    handler (fun _ => FetchResult.ok (0 : Nat)) id 0 0
        [("latest", (⟨5, 0⟩ : CacheEntry Nat))] "GET" "/cache/clear" =
      ⟨⟨200, some { success := true,
                    data := some (.clearInfo "Cache cleared" 0),
                    error := none, path := none, endpoint := some "/cache/clear",
                    cached := some false, timestamp := some 0 }, some "MISS"⟩,
       [], []⟩ :=
  ⟨rfl, rfl⟩

/-- The dispatcher's success/error wrapper does not add or hide fetches: the
fetched-URL log of the wrapped outcome is passed through unchanged. -/
theorem finishRequest_fetched {α : Type} (now : Nat) (ep : String)
    (out : Except String (FetchOutcome α) × Cache α × List String) :
    (finishRequest now ep out).fetched = out.2.2 := by
  rcases out with ⟨res, c, log⟩
  cases res <;> rfl

/-- On a cache miss exactly one fetch of the given URL is performed, whatever
its outcome. -/
theorem fetchWithCache_fetches_on_miss {α : Type} (upstream : String → FetchResult α)
    (now : Nat) (cache : Cache α) (url key : String)
    (hmiss : (getCached now cache key).1 = none) :
    (fetchWithCache upstream now cache url key).2.2 = [url] := by
  have hc : getCached now cache key = (none, (getCached now cache key).2) :=
    Prod.ext_iff.mpr ⟨hmiss, rfl⟩
  cases hup : upstream url with
  | ok d => conv_lhs => rw [fetchWithCache, hc, hup]
  | httpError s st => conv_lhs => rw [fetchWithCache, hc, hup]
  | parseError m => conv_lhs => rw [fetchWithCache, hc, hup]

/-- C9, counterexample: a negative numeric segment (slash followed by "-5") is
NOT passed through to the upstream fetch: the numeric-route regex does not
match a minus sign, so the dispatcher itself answers 404 Not Found, fetching
nothing and leaving the cache alone. -/
theorem negative_segment_counterexample :
    handler (fun _ => FetchResult.ok (0 : Nat)) id 0 0 [] "GET" "/-5" =
      ⟨⟨404, some { success := false, data := none, error := some "Not Found",
                    path := some "/-5", endpoint := none, cached := none,
                    timestamp := none }, none⟩, [], []⟩ :=
  rfl

/-- C9, amended: an all-digit segment out of sane range such as `/0` is passed
through unvalidated — on a cache miss the handler performs exactly the fetch of
comic 0's URL, letting the upstream respond — while a negative segment (slash
followed by "-5") does not match the numeric route at all and gets the
dispatcher's own 404 envelope with no fetch. -/
theorem out_of_range_passthrough {α : Type} (upstream : String → FetchResult α)
    (numField : α → Nat) (rq : ℚ) (now : Nat) (cache : Cache α)
    (hmiss : (getCached now cache "comic-0").1 = none) :
    (handler upstream numField rq now cache "GET" "/0").fetched = [comicUrl 0] ∧
    handler upstream numField rq now cache "GET" "/-5" =
      ⟨⟨404, some { success := false, data := none, error := some "Not Found",
                    path := some "/-5", endpoint := none, cached := none,
                    timestamp := none }, none⟩, cache, []⟩ := by
  constructor
  · have h1 : handler upstream numField rq now cache "GET" "/0" =
        finishRequest now ("comic-" ++ toString (0 : Nat))
          (getXkcdByNumber upstream now cache (Int.ofNat 0)) := by
      unfold handler
      rw [if_neg (by decide : ¬ ("GET" : String) = "OPTIONS"),
          if_neg (by decide : ¬ (("/0" : String) = "/" ∨ ("/0" : String) = "/latest")),
          if_neg (by decide : ¬ ("/0" : String) = "/random"),
          if_pos (by decide : matchesComicRoute "/0" = true)]
      rfl
    rw [h1, finishRequest_fetched]
    exact fetchWithCache_fetches_on_miss upstream now cache (comicUrl (Int.ofNat 0))
      ("comic-" ++ toString (Int.ofNat 0)) hmiss
  · unfold handler
    rw [if_neg (by decide : ¬ ("GET" : String) = "OPTIONS"),
        if_neg (by decide : ¬ (("/-5" : String) = "/" ∨ ("/-5" : String) = "/latest")),
        if_neg (by decide : ¬ ("/-5" : String) = "/random"),
        if_neg (by decide : ¬ matchesComicRoute "/-5" = true),
        if_neg (by decide : ¬ ("/-5" : String) = "/cache/stats"),
        if_neg (by decide : ¬ ("/-5" : String) = "/cache/clear")]

/-- Witness for the amended C9: on an empty cache, `GET /0` fetches comic 0's
URL. -/
theorem out_of_range_passthrough_witness :
    (handler (fun _ => FetchResult.ok (0 : Nat)) id 0 0 [] "GET" "/0").fetched =
      [comicUrl 0] :=
  (out_of_range_passthrough (fun _ => FetchResult.ok (0 : Nat)) id 0 0 [] rfl).1

/-- Routing of an all-digit path: a slash followed by a nonempty digit string
takes the numeric route, which parses the digits with `parseInt` and calls
`getXkcdByNumber` with endpoint label `comic-${num}`. -/
theorem handler_digit_path {α : Type} (upstream : String → FetchResult α)
    (numField : α → Nat) (rq : ℚ) (now : Nat) (cache : Cache α)
    (d : List Char) (hne : d ≠ []) (hd : d.all Char.isDigit = true) :
    handler upstream numField rq now cache "GET" (String.mk ('/' :: d)) =
      finishRequest now ("comic-" ++ toString (parseIntDigits d))
        (getXkcdByNumber upstream now cache (Int.ofNat (parseIntDigits d))) := by
  have hne1 : ¬ (String.mk ('/' :: d) = "/" ∨ String.mk ('/' :: d) = "/latest") := by
    rintro (h | h)
    · have h2 : '/' :: d = ['/'] := congrArg String.data h
      exact hne (List.cons.inj h2).2
    · have h2 : '/' :: d = ['/', 'l', 'a', 't', 'e', 's', 't'] := congrArg String.data h
      have h3 : d = ['l', 'a', 't', 'e', 's', 't'] := (List.cons.inj h2).2
      rw [h3] at hd
      exact absurd hd (by decide)
  have hne2 : ¬ String.mk ('/' :: d) = "/random" := by
    intro h
    have h2 : '/' :: d = ['/', 'r', 'a', 'n', 'd', 'o', 'm'] := congrArg String.data h
    have h3 : d = ['r', 'a', 'n', 'd', 'o', 'm'] := (List.cons.inj h2).2
    rw [h3] at hd
    exact absurd hd (by decide)
  have hmc : matchesComicRoute (String.mk ('/' :: d)) = true := by
    show (!d.isEmpty && d.all Char.isDigit) = true
    rw [hd, Bool.and_true]
    cases d with
    | nil => exact absurd rfl hne
    | cons c cs => rfl
  unfold handler
  rw [if_neg (by decide : ¬ ("GET" : String) = "OPTIONS"), if_neg hne1, if_neg hne2,
      if_pos hmc]
  rfl

/-- C10: the numeric route parses the comic number with `parseInt`, so two
all-digit paths denoting the same integer — such as `/007` and `/7` — resolve
to the same comic number, the same cache key `comic-7`, the same endpoint
label, and hence the same handler outcome on any shared cache state. -/
theorem numeric_paths_same_integer_share_entry {α : Type}
    (upstream : String → FetchResult α) (numField : α → Nat) (rq : ℚ)
    (now : Nat) (cache : Cache α) (d1 d2 : List Char)
    (h1 : d1 ≠ []) (h2 : d2 ≠ [])
    (hd1 : d1.all Char.isDigit = true) (hd2 : d2.all Char.isDigit = true)
    (hval : parseIntDigits d1 = parseIntDigits d2) :
    handler upstream numField rq now cache "GET" (String.mk ('/' :: d1)) =
      finishRequest now ("comic-" ++ toString (parseIntDigits d1))
        (getXkcdByNumber upstream now cache (Int.ofNat (parseIntDigits d1))) ∧
    handler upstream numField rq now cache "GET" (String.mk ('/' :: d1)) =
      handler upstream numField rq now cache "GET" (String.mk ('/' :: d2)) := by
  refine ⟨handler_digit_path upstream numField rq now cache d1 h1 hd1, ?_⟩
  rw [handler_digit_path upstream numField rq now cache d1 h1 hd1,
      handler_digit_path upstream numField rq now cache d2 h2 hd2, hval]

/-- Witness for C10: `/007` and `/7` produce identical handler outcomes. -/
theorem numeric_paths_same_integer_share_entry_witness :
    handler (fun _ => FetchResult.ok (0 : Nat)) id 0 0 [] "GET"
        (String.mk ['/', '0', '0', '7']) =
      handler (fun _ => FetchResult.ok (0 : Nat)) id 0 0 [] "GET"
        (String.mk ['/', '7']) :=
  (numeric_paths_same_integer_share_entry (fun _ => FetchResult.ok (0 : Nat)) id 0 0 []
    ['0', '0', '7'] ['7'] (by decide) (by decide) (by decide) (by decide) (by decide)).2
